import Mathlib

/-!
Shallow embedding of the data model and the data pipeline of
`src/dashboard/app.py` (Ethiopia Financial Inclusion Dashboard).

Machine floats of the source (`value_numeric`, the derived `year` column)
are modelled as `Rat` and `Int`; the pandas missing value `NaN` is
modelled as `Option.none`.  Tables are lists of rows.
-/

/-- One row of the unified dataset `ethiopia_fi_unified_data_enriched.csv`,
with the columns consumed by the dashboard.  `value_numeric` is nullable
(`none` models `NaN`). -/
structure Record where
  record_type : String
  observation_date : String
  indicator_code : String
  pillar : String
  gender : String
  unit : String
  value_numeric : Option Rat
deriving DecidableEq, Repr

/-- One processed row: a `Record` together with the derived `year` column
added by `process_observations` / `process_events` (app.py line 73 / 80);
`none` models the `NaN` produced when the date fails to parse. -/
structure ObsRow where
  record_type : String
  observation_date : String
  indicator_code : String
  pillar : String
  gender : String
  unit : String
  value_numeric : Option Rat
  year : Option Int
deriving DecidableEq, Repr

/-- Numeric value of a decimal digit character. -/
def digitVal (c : Char) : Nat := c.toNat - 48

/-- Modelled from the spec: the permissive multi-format date parser
(`pd.to_datetime(..., format='mixed', errors='coerce')`, an external
library call).  It accepts year-first ISO-like date strings (a 4-digit
year, optionally followed by `-` or `/` separated numeric components)
and yields the year; any string failing the supported formats yields
`none` (the `NaT`/`NaN` of the source), never a sentinel value and never
an exception. -/
def parseDateYear (s : String) : Option Int :=
  match s.data with
  | c1 :: c2 :: c3 :: c4 :: rest =>
      if c1.isDigit && c2.isDigit && c3.isDigit && c4.isDigit
          && (rest.isEmpty
              || ((rest.head? == some '-' || rest.head? == some '/')
                  && rest.all fun c => c.isDigit || c == '-' || c == '/'))
      then some (((digitVal c1 * 10 + digitVal c2) * 10 + digitVal c3) * 10
                   + digitVal c4)
      else none
  | _ => none

/-- The derived-year enrichment applied to one row:
`obs['year'] = pd.to_datetime(obs['observation_date'], ...).dt.year`
(app.py line 73). -/
def addYear (r : Record) : ObsRow :=
  { record_type := r.record_type
    observation_date := r.observation_date
    indicator_code := r.indicator_code
    pillar := r.pillar
    gender := r.gender
    unit := r.unit
    value_numeric := r.value_numeric
    year := parseDateYear r.observation_date }

/-- `process_observations` (app.py lines 69-74): keep the rows with
`record_type == 'observation'` and add the derived `year` column.  The
source table is not modified (`.copy()`). -/
def process_observations (main_data : List Record) : List ObsRow :=
  (main_data.filter fun r => r.record_type == "observation").map addYear

/-- `process_events` (app.py lines 76-81): keep the rows with
`record_type == 'event'` and add the derived `year` column. -/
def process_events (main_data : List Record) : List ObsRow :=
  (main_data.filter fun r => r.record_type == "event").map addYear

/-- The year-range test of the Trends filter:
`(year >= year_range[0]) & (year <= year_range[1])`.  A `NaN` year
(modelled `none`) compares false on both sides, exactly as in pandas. -/
def yearIn (y : Option Int) (lo hi : Int) : Bool :=
  match y with
  | some v => lo ≤ v && v ≤ hi
  | none => false

/-- `filtered_obs` (app.py lines 305-310): retain the observation rows
whose `pillar` is in `selected_pillars`, whose derived `year` lies in the
inclusive range, and whose `unit` equals the requested unit (the call
site passes the literal `'%'`). -/
def filtered_obs (observations : List ObsRow) (selected_pillars : List String)
    (lo hi : Int) (unit : String) : List ObsRow :=
  observations.filter fun r =>
    selected_pillars.contains r.pillar && yearIn r.year lo hi
      && (r.unit == unit)

/-- Grouping key of the Trends aggregation: `(indicator_code, year, pillar)`. -/
abbrev GroupKey := String × Option Int × String

/-- Grouping key of one row. -/
def keyOf (r : ObsRow) : GroupKey := (r.indicator_code, r.year, r.pillar)

/-- Mean of `value_numeric` over the rows of one group, with the pandas
`mean` semantics: `NaN` entries are skipped in both the numerator and the
denominator, and a group whose entries are all `NaN` gets the mean `NaN`
(modelled `none`). -/
def groupMean (rows : List ObsRow) (k : GroupKey) : Option Rat :=
  let vals := (rows.filter fun r => keyOf r == k).filterMap fun r =>
    r.value_numeric
  if vals.isEmpty then none else some (vals.sum / (vals.length : Rat))

/-- `trend_data` (app.py line 314):
`filtered_obs.groupby(['indicator_code','year','pillar'])['value_numeric'].mean().reset_index()`.
One output entry per distinct group key occurring in the input (pandas
emits the groups in sorted key order; the spec leaves the order
unspecified, and this embedding uses a deterministic first-class
deduplication of the key list). -/
def trend_data (rows : List ObsRow) : List (GroupKey × Option Rat) :=
  ((rows.map keyOf).dedup).map fun k => (k, groupMean rows k)

/-- The Filter/Aggregate step of the spec (app.py lines 305-314 as one
function): filter, then group and reduce to the per-group mean. -/
def filterAndAggregate (observations : List ObsRow)
    (selected_pillars : List String) (lo hi : Int) (unit : String) :
    List (GroupKey × Option Rat) :=
  trend_data (filtered_obs observations selected_pillars lo hi unit)

/-- What the Trends section renders for the chart area (app.py lines
312-332): the aggregated chart data when at least one row survives the
filter, and the explanatory info message otherwise. -/
inductive TrendsResult where
  | chart (d : List (GroupKey × Option Rat))
  | message (s : String)
deriving DecidableEq, Repr

/-- The `if len(filtered_obs) > 0: ... else: st.info(...)` branch of the
Trends page (app.py lines 312-332). -/
def trendsSection (observations : List ObsRow) (selected_pillars : List String)
    (lo hi : Int) (unit : String) : TrendsResult :=
  let f := filtered_obs observations selected_pillars lo hi unit
  if f.length > 0 then .chart (trend_data f)
  else .message
    "No data available for selected filters. Try adjusting the year range or pillars."

/-- Ascending comparison on the derived year used by
`sort_values('year')`: `NaN` years sort after every present year
(`na_position='last'`). -/
def yearLE (a b : Option Int) : Bool :=
  match a, b with
  | some x, some y => x ≤ y
  | some _, none => true
  | none, some _ => false
  | none, none => true

/-- Stable insertion of a row into a list already sorted ascending by year. -/
def insertByYear (r : ObsRow) : List ObsRow → List ObsRow
  | [] => [r]
  | x :: xs =>
      if yearLE r.year x.year then r :: x :: xs else x :: insertByYear r xs

/-- Stable sort of rows ascending by the derived year, `NaN` years last
(`sort_values('year')`, app.py line 131). -/
def sortByYear : List ObsRow → List ObsRow
  | [] => []
  | r :: rs => insertByYear r (sortByYear rs)

/-- Decimal digit character of `d` (meaningful for `d < 10`). -/
def digitChar (d : Nat) : Char := Char.ofNat (48 + d)

/-- Fuel-bounded decimal printer for naturals, most significant digit
first; the fuel is an upper bound that makes the recursion structural. -/
def natToCharsAux : Nat → Nat → List Char
  | 0, _ => []
  | fuel+1, n =>
      if n < 10 then [digitChar n]
      else natToCharsAux fuel (n / 10) ++ [digitChar (n % 10)]

/-- Decimal rendering of a natural number. -/
def natToChars (n : Nat) : List Char := natToCharsAux (n + 1) n

/-- Decimal parse of a digit string. -/
def parseNatChars (cs : List Char) : Nat :=
  cs.foldl (fun a c => a * 10 + digitVal c) 0

/-- Decimal rendering of an integer. -/
def intToChars (i : Int) : List Char :=
  if i < 0 then '-' :: natToChars i.natAbs else natToChars i.natAbs

/-- Decimal parse of an integer string. -/
def parseIntChars : List Char → Int
  | [] => 0
  | c :: rest =>
      if c = '-' then -(parseNatChars rest : Int)
      else (parseNatChars (c :: rest) : Int)

/-- Exact rendering of a rational cell as `numerator/denominator`. -/
def ratToChars (q : Rat) : List Char :=
  intToChars q.num ++ '/' :: natToChars q.den

/-- Rendering of a nullable numeric cell; `NaN` renders as the empty
cell, as pandas renders missing values on export. -/
def optRatToChars : Option Rat → List Char
  | none => []
  | some q => ratToChars q

/-- Rendering of the nullable derived-year cell. -/
def optIntToChars : Option Int → List Char
  | none => []
  | some i => intToChars i

/-- Split a cell at its first `/`. -/
def breakAtSlash : List Char → Option (List Char × List Char)
  | [] => none
  | c :: cs =>
      if c = '/' then some ([], cs)
      else (breakAtSlash cs).map fun p => (c :: p.1, p.2)

/-- Parse of a nullable numeric cell. -/
def parseOptRatChars : List Char → Option (Option Rat)
  | [] => some none
  | c :: cs =>
      match breakAtSlash (c :: cs) with
      | some p => some (some (mkRat (parseIntChars p.1) (parseNatChars p.2)))
      | none => none

/-- Parse of the nullable derived-year cell. -/
def parseOptIntChars : List Char → Option Int
  | [] => none
  | c :: cs => some (parseIntChars (c :: cs))

/-- Modelled from the spec: the CSV serialization of one observation row
(`observations.to_csv(index=False)`, app.py line 442; file-system CSV
I/O is an out-of-scope external collaborator).  One cell per column in
table order, absent values rendered as the empty cell. -/
def printObsRow (r : ObsRow) : List (List Char) :=
  [r.record_type.data, r.observation_date.data, r.indicator_code.data,
   r.pillar.data, r.gender.data, r.unit.data,
   optRatToChars r.value_numeric, optIntToChars r.year]

/-- The CSV text produced by the download button of the Trends page
(app.py lines 442-448): the serialization of the full in-memory
observation table, row by row. -/
def obsToCsv (obs : List ObsRow) : List (List (List Char)) :=
  obs.map printObsRow

/-- Modelled from the spec: the Loader-side parse of one exported row
(`pd.read_csv`, out-of-scope CSV I/O).  A row of unexpected shape or
with an unparseable numeric cell is not a row of the re-loaded table. -/
def parseObsRow : List (List Char) → Option ObsRow
  | [rt, od, ic, pl, ge, un, vn, yr] =>
      match parseOptRatChars vn with
      | none => none
      | some v =>
          some { record_type := String.mk rt
                 observation_date := String.mk od
                 indicator_code := String.mk ic
                 pillar := String.mk pl
                 gender := String.mk ge
                 unit := String.mk un
                 value_numeric := v
                 year := parseOptIntChars yr }
  | _ => none

/-- Re-loading an exported CSV through the Loader: parse every row. -/
def csvToObs (csv : List (List (List Char))) : List ObsRow :=
  csv.filterMap parseObsRow

/-- The Latest-Value Selector (app.py lines 128-133): filter to the rows
matching `indicator_code` and `gender`, sort ascending by `year`, and
take the `value_numeric` of the last row (`iloc[-1]`) and of the row
before it (`iloc[-2]`).  `none` models both a missing row and a `NaN`
value; the call site substitutes its literal fallback constants. -/
def latestAndPrevious (observations : List ObsRow)
    (indicator_code gender : String) : Option Rat × Option Rat :=
  let acc := sortByYear (observations.filter fun r =>
    r.indicator_code == indicator_code && r.gender == gender)
  ((acc.getLast?).bind fun r => r.value_numeric,
   (acc.dropLast.getLast?).bind fun r => r.value_numeric)

/-- An opaque loaded table: rows of string cells, passed through for
display and export without validation. -/
abbrev Csv := List (List String)

/-- Modelled from the spec: one backing-file read (`pd.read_csv`,
out-of-scope file-system I/O).  A missing, unreadable or malformed file
is modelled as `none` and raises; a readable table is returned. -/
def read_csv {α : Type} (file : Option α) : Except String α :=
  match file with
  | some t => Except.ok t
  | none => Except.error "DataUnavailable"

/-- `load_data` (app.py lines 53-67): read the three backing files in
order; the first failing read raises and no partial result is produced. -/
def load_data (mainFile : Option (List Record))
    (forecastFile impactFile : Option Csv) :
    Except String (List Record × Csv × Csv) :=
  match read_csv mainFile with
  | Except.error e => Except.error e
  | Except.ok m =>
      match read_csv forecastFile with
      | Except.error e => Except.error e
      | Except.ok f =>
          match read_csv impactFile with
          | Except.error e => Except.error e
          | Except.ok i => Except.ok (m, f, i)

/-- The in-memory snapshot built once per session (app.py lines 84-88):
the three loaded tables plus the two partitions. -/
structure Session where
  main_data : List Record
  forecast_data : Csv
  impact_matrix : Csv
  observations : List ObsRow
  events : List ObsRow
deriving DecidableEq

/-- The `try: ... except: data_loaded = False` block (app.py lines
84-91): a session snapshot when every load succeeds, nothing otherwise. -/
def initSession (mainFile : Option (List Record))
    (forecastFile impactFile : Option Csv) : Option Session :=
  match load_data mainFile forecastFile impactFile with
  | Except.ok (m, f, i) =>
      some { main_data := m, forecast_data := f, impact_matrix := i,
             observations := process_observations m,
             events := process_events m }
  | Except.error _ => none

/-- The `data_loaded` flag guarding every page (app.py lines 88, 91). -/
def data_loaded (mainFile : Option (List Record))
    (forecastFile impactFile : Option Csv) : Bool :=
  (initSession mainFile forecastFile impactFile).isSome

/-- The four pages of the sidebar radio (app.py lines 98-102). -/
inductive Page where
  | overview
  | trends
  | forecasts
  | projections
deriving DecidableEq

/-- The data-derived content of one page. -/
inductive PageData where
  | overview (current_acc prev_acc : Rat) (total_records : Nat)
  | trends (chart : TrendsResult) (csvExport : List (List (List Char)))
  | forecasts (csvExport : Csv)
  | projections (csvExport : Csv)
deriving DecidableEq

/-- The data-derived content each page renders from the session snapshot:
the overview metrics with their literal fallback constants (app.py lines
128-133), the Trends chart-or-message plus the observation CSV download
(app.py lines 305-332 and 442-448), and the forecast/impact CSV
downloads (app.py lines 632, 826). -/
def pageContent (p : Page) (s : Session) (selected_pillars : List String)
    (lo hi : Int) : PageData :=
  match p with
  | Page.overview =>
      let lp := latestAndPrevious s.observations "ACC_OWNERSHIP" "all"
      PageData.overview (lp.1.getD 49) (lp.2.getD 46) s.main_data.length
  | Page.trends =>
      PageData.trends (trendsSection s.observations selected_pillars lo hi "%")
        (obsToCsv s.observations)
  | Page.forecasts => PageData.forecasts s.forecast_data
  | Page.projections => PageData.projections s.impact_matrix

/-- One page-view render: data-derived content is produced only under
the `if data_loaded:` guard; a failed load renders none of it for any
page. -/
def renderPage (p : Page) (mainFile : Option (List Record))
    (forecastFile impactFile : Option Csv) (selected_pillars : List String)
    (lo hi : Int) : Option PageData :=
  match initSession mainFile forecastFile impactFile with
  | some s => some (pageContent p s selected_pillars lo hi)
  | none => none

/-- Concrete observation-row builder for the concrete instances below
(indicator, pillar, gender, unit, value, year). -/
def sampleRow (ic pl gen un : String) (v : Option Rat) (y : Option Int) : ObsRow :=
  { record_type := "observation", observation_date := "", indicator_code := ic,
    pillar := pl, gender := gen, unit := un, value_numeric := v, year := y }

/-- The account-ownership history of the spec example, years/values
2011:14, 2014:22, 2017:35, 2021:46, 2024:49, listed out of year order so
the ascending sort is exercised, plus one male row the gender filter must
drop. -/
def accOwnershipDemo : List ObsRow :=
  [sampleRow "ACC_OWNERSHIP" "ACCESS" "all" "%" (some 35) (some 2017),
   sampleRow "ACC_OWNERSHIP" "ACCESS" "all" "%" (some 14) (some 2011),
   sampleRow "ACC_OWNERSHIP" "ACCESS" "male" "%" (some 58) (some 2024),
   sampleRow "ACC_OWNERSHIP" "ACCESS" "all" "%" (some 49) (some 2024),
   sampleRow "ACC_OWNERSHIP" "ACCESS" "all" "%" (some 22) (some 2014),
   sampleRow "ACC_OWNERSHIP" "ACCESS" "all" "%" (some 46) (some 2021)]

/-- Demo table for the grouping claims: one group with the values
10, 20 and an absent entry, and a second group whose only entry is
absent. -/
def trendDemo : List ObsRow :=
  [sampleRow "IND_A" "ACCESS" "all" "%" (some 10) (some 2020),
   sampleRow "IND_A" "ACCESS" "all" "%" (some 20) (some 2020),
   sampleRow "IND_A" "ACCESS" "all" "%" none (some 2020),
   sampleRow "IND_B" "USAGE" "all" "%" none (some 2021)]

/-- Demo record with a date no supported format accepts. -/
def badDateRecord : Record :=
  { record_type := "observation", observation_date := "not a date",
    indicator_code := "ACC_OWNERSHIP", pillar := "ACCESS", gender := "all",
    unit := "%", value_numeric := some 99 }

/-- Demo unified records for the date-parsing claims: one row with a
parseable date and one row whose date no supported format accepts. -/
def dateDemoRecords : List Record :=
  [{ record_type := "observation", observation_date := "2021-09-15",
     indicator_code := "ACC_OWNERSHIP", pillar := "ACCESS", gender := "all",
     unit := "%", value_numeric := some 46 },
   badDateRecord]

/-- Demo table for the export claim: one row inside the render-time
pillar filter, one row outside it, and one absent-year row. -/
def exportDemo : List ObsRow :=
  [sampleRow "IND_A" "ACCESS" "all" "%" (some 10) (some 2020),
   sampleRow "IND_B" "USAGE" "all" "%" (some 20) (some 2020),
   sampleRow "IND_C" "ACCESS" "all" "%" (some 30) none]

/-- Demo unified records for the partition claim: one observation and one
event. -/
def partitionDemo : List Record :=
  [{ record_type := "observation", observation_date := "2021-09-15",
     indicator_code := "ACC_OWNERSHIP", pillar := "ACCESS", gender := "all",
     unit := "%", value_numeric := some 46 },
   { record_type := "event", observation_date := "2023-08-01",
     indicator_code := "EVT_MPESA", pillar := "USAGE", gender := "all",
     unit := "", value_numeric := none }]

theorem digitVal_digitChar {d : Nat} (h : d < 10) : digitVal (digitChar d) = d := by
  have h10 : ∀ e : Fin 10, digitVal (digitChar e.val) = e.val := by decide
  exact h10 ⟨d, h⟩

theorem isDigit_digitChar {d : Nat} (h : d < 10) : (digitChar d).isDigit = true := by
  have h10 : ∀ e : Fin 10, (digitChar e.val).isDigit = true := by decide
  exact h10 ⟨d, h⟩

theorem parseNatChars_append (cs : List Char) (c : Char) :
    parseNatChars (cs ++ [c]) = parseNatChars cs * 10 + digitVal c := by
  simp [parseNatChars, List.foldl_append]

theorem parseNatChars_natToCharsAux :
    ∀ fuel n, n < fuel → parseNatChars (natToCharsAux fuel n) = n := by
  intro fuel
  induction fuel with
  | zero => intro n h; omega
  | succ fuel ih =>
      intro n h
      by_cases h10 : n < 10
      · simp [natToCharsAux, h10, parseNatChars, digitVal_digitChar h10]
      · have hn0 : 0 < n := by omega
        have hdiv : n / 10 < fuel :=
          lt_of_lt_of_le (Nat.div_lt_self hn0 (by omega)) (by omega)
        rw [natToCharsAux, if_neg h10, parseNatChars_append, ih _ hdiv,
          digitVal_digitChar (Nat.mod_lt n (by omega))]
        omega

theorem parseNatChars_natToChars (n : Nat) :
    parseNatChars (natToChars n) = n :=
  parseNatChars_natToCharsAux (n + 1) n (Nat.lt_succ_self n)

theorem natToCharsAux_ne_nil (fuel n : Nat) (h : n < fuel) :
    natToCharsAux fuel n ≠ [] := by
  cases fuel with
  | zero => omega
  | succ fuel => by_cases h10 : n < 10 <;> simp [natToCharsAux, h10]

theorem natToChars_ne_nil (n : Nat) : natToChars n ≠ [] :=
  natToCharsAux_ne_nil (n + 1) n (Nat.lt_succ_self n)

theorem mem_natToCharsAux_isDigit :
    ∀ fuel n c, c ∈ natToCharsAux fuel n → c.isDigit = true := by
  intro fuel
  induction fuel with
  | zero => intro n c h; simp [natToCharsAux] at h
  | succ fuel ih =>
      intro n c h
      by_cases h10 : n < 10
      · rw [natToCharsAux, if_pos h10] at h
        simp at h
        subst h
        exact isDigit_digitChar h10
      · rw [natToCharsAux, if_neg h10] at h
        rcases List.mem_append.mp h with h | h
        · exact ih _ _ h
        · simp at h
          subst h
          exact isDigit_digitChar (Nat.mod_lt n (by omega))

theorem intToChars_ne_nil (i : Int) : intToChars i ≠ [] := by
  unfold intToChars
  by_cases h : i < 0
  · simp [h]
  · rw [if_neg h]
    exact natToChars_ne_nil _

theorem mem_intToChars {c : Char} {i : Int} (h : c ∈ intToChars i) :
    c.isDigit = true ∨ c = '-' := by
  unfold intToChars at h
  by_cases hneg : i < 0
  · rw [if_pos hneg] at h
    rcases List.mem_cons.mp h with h | h
    · exact Or.inr h
    · exact Or.inl (mem_natToCharsAux_isDigit _ _ _ h)
  · rw [if_neg hneg] at h
    exact Or.inl (mem_natToCharsAux_isDigit _ _ _ h)

theorem slash_not_mem_intToChars (i : Int) : '/' ∉ intToChars i := by
  intro h
  rcases mem_intToChars h with h | h
  · exact absurd h (by decide)
  · exact absurd h (by decide)

theorem parseIntChars_intToChars (i : Int) : parseIntChars (intToChars i) = i := by
  by_cases hneg : i < 0
  · rw [intToChars, if_pos hneg]
    rw [parseIntChars, if_pos rfl, parseNatChars_natToChars]
    omega
  · rw [intToChars, if_neg hneg]
    obtain ⟨c, cs, hc⟩ : ∃ c cs, natToChars i.natAbs = c :: cs := by
      cases he : natToChars i.natAbs with
      | nil => exact absurd he (natToChars_ne_nil _)
      | cons c cs => exact ⟨c, cs, rfl⟩
    have hcd : c.isDigit = true := by
      apply mem_natToCharsAux_isDigit (i.natAbs + 1) i.natAbs
      show c ∈ natToChars i.natAbs
      rw [hc]
      exact List.mem_cons_self c cs
    have hcne : ¬ c = '-' := by
      intro e
      rw [e] at hcd
      exact absurd hcd (by decide)
    rw [hc, parseIntChars, if_neg hcne, ← hc, parseNatChars_natToChars]
    omega

theorem breakAtSlash_append (a b : List Char) (h : '/' ∉ a) :
    breakAtSlash (a ++ '/' :: b) = some (a, b) := by
  induction a with
  | nil => simp [breakAtSlash]
  | cons c cs ih =>
      have hc : ¬ c = '/' := by
        intro e
        apply h
        rw [e]
        exact List.mem_cons_self _ _
      have hcs : '/' ∉ cs := fun m => h (List.mem_cons_of_mem c m)
      simp [breakAtSlash, hc, ih hcs]

theorem parseOptRatChars_optRatToChars (v : Option Rat) :
    parseOptRatChars (optRatToChars v) = some v := by
  cases v with
  | none => rfl
  | some q =>
      have hsplit : breakAtSlash (intToChars q.num ++ '/' :: natToChars q.den)
          = some (intToChars q.num, natToChars q.den) :=
        breakAtSlash_append _ _ (slash_not_mem_intToChars q.num)
      obtain ⟨c, cs, hc⟩ : ∃ c cs, intToChars q.num = c :: cs := by
        cases he : intToChars q.num with
        | nil => exact absurd he (intToChars_ne_nil _)
        | cons c cs => exact ⟨c, cs, rfl⟩
      show parseOptRatChars (intToChars q.num ++ '/' :: natToChars q.den) = some (some q)
      rw [hc, List.cons_append, parseOptRatChars, ← List.cons_append, ← hc, hsplit]
      show some (some (mkRat (parseIntChars (intToChars q.num))
          (parseNatChars (natToChars q.den)))) = some (some q)
      rw [parseIntChars_intToChars, parseNatChars_natToChars, Rat.mkRat_self]

theorem parseOptIntChars_optIntToChars (y : Option Int) :
    parseOptIntChars (optIntToChars y) = y := by
  cases y with
  | none => rfl
  | some i =>
      obtain ⟨c, cs, hc⟩ : ∃ c cs, intToChars i = c :: cs := by
        cases he : intToChars i with
        | nil => exact absurd he (intToChars_ne_nil _)
        | cons c cs => exact ⟨c, cs, rfl⟩
      show parseOptIntChars (intToChars i) = some i
      rw [hc, parseOptIntChars, ← hc, parseIntChars_intToChars]

theorem parseObsRow_printObsRow (r : ObsRow) : parseObsRow (printObsRow r) = some r := by
  show parseObsRow
      [r.record_type.data, r.observation_date.data, r.indicator_code.data,
       r.pillar.data, r.gender.data, r.unit.data,
       optRatToChars r.value_numeric, optIntToChars r.year] = some r
  rw [parseObsRow, parseOptRatChars_optRatToChars, parseOptIntChars_optIntToChars]

theorem yearIn_iff (y : Option Int) (lo hi : Int) :
    yearIn y lo hi = true ↔ ∃ v, y = some v ∧ lo ≤ v ∧ v ≤ hi := by
  cases y with
  | none => simp [yearIn]
  | some v => simp [yearIn, Bool.and_eq_true, decide_eq_true_eq]

theorem contains_iff (l : List String) (a : String) :
    l.contains a = true ↔ a ∈ l := List.elem_iff

/-- C1: a row is retained by the Filter/Aggregate filter exactly when its
pillar belongs to the selected pillar set, its derived year is present
and lies in the inclusive year range, and its unit equals the requested
unit by exact string equality; no other row is retained. -/
theorem c1_filter_characterization (observations : List ObsRow)
    (selected_pillars : List String) (lo hi : Int) (unit : String)
    (hrange : lo ≤ hi) (r : ObsRow) :
    r ∈ filtered_obs observations selected_pillars lo hi unit ↔
      r ∈ observations ∧ r.pillar ∈ selected_pillars
        ∧ (∃ y, r.year = some y ∧ lo ≤ y ∧ y ≤ hi) ∧ r.unit = unit := by
  rw [filtered_obs, List.mem_filter, Bool.and_eq_true, Bool.and_eq_true]
  rw [contains_iff, yearIn_iff, beq_iff_eq]
  tauto

theorem c1_witness :
    (2011 : Int) ≤ 2025
    ∧ (sampleRow "ACC_OWNERSHIP" "ACCESS" "all" "%" (some 49) (some 2024)
          ∈ filtered_obs accOwnershipDemo ["ACCESS"] 2011 2025 "%" ↔
        sampleRow "ACC_OWNERSHIP" "ACCESS" "all" "%" (some 49) (some 2024)
            ∈ accOwnershipDemo
          ∧ (sampleRow "ACC_OWNERSHIP" "ACCESS" "all" "%" (some 49) (some 2024)).pillar
              ∈ ["ACCESS"]
          ∧ (∃ y, (sampleRow "ACC_OWNERSHIP" "ACCESS" "all" "%" (some 49)
                (some 2024)).year = some y ∧ 2011 ≤ y ∧ y ≤ 2025)
          ∧ (sampleRow "ACC_OWNERSHIP" "ACCESS" "all" "%" (some 49)
              (some 2024)).unit = "%") :=
  ⟨by decide,
   c1_filter_characterization accOwnershipDemo ["ACCESS"] 2011 2025 "%"
     (by decide) (sampleRow "ACC_OWNERSHIP" "ACCESS" "all" "%" (some 49) (some 2024))⟩

/-- C2 counterexample: a group whose `value_numeric` entries are all
absent is not dropped from the Filter/Aggregate output, contrary to the
claim; the group is reported, with an absent (NaN) mean. -/
theorem c2_counterexample :
    trend_data [sampleRow "IND_B" "USAGE" "all" "%" none (some 2021)] ≠ []
    ∧ trend_data [sampleRow "IND_B" "USAGE" "all" "%" none (some 2021)]
        = [(("IND_B", some 2021, "USAGE"), none)] := by
  constructor
  · decide
  · decide

theorem countP_eq_one_of_nodup {α : Type} :
    ∀ (l : List α) (p : α → Bool) (a : α), (∀ x, p x = true ↔ x = a) →
      l.Nodup → a ∈ l → l.countP p = 1
  | [], _, a, _, _, ha => by simp at ha
  | b :: t, p, a, hp, hnd, ha => by
      rw [List.countP_cons]
      rcases List.mem_cons.mp ha with rfl | ha2
      · have hbt : a ∉ t := (List.nodup_cons.mp hnd).1
        have h0 : t.countP p = 0 :=
          List.countP_eq_zero.mpr fun x hx hpx =>
            hbt ((hp x).mp hpx ▸ hx)
        simp [h0, (hp a).mpr rfl]
      · have hba : ¬ p b = true := fun hpb =>
          (List.nodup_cons.mp hnd).1 ((hp b).mp hpb ▸ ha2)
        simp [countP_eq_one_of_nodup t p a hp (List.nodup_cons.mp hnd).2 ha2, hba]

/-- C2 (amended): the Filter/Aggregate step groups rows by
(indicator_code, year, pillar) and reports every group key occurring in
the rows exactly once; the reported mean averages exactly the non-absent
`value_numeric` entries, excluding absent entries from both the numerator
and the denominator (so a group with values 10, 20 and an absent entry
reports 15); a group whose entries are all absent is reported with an
absent (NaN) mean rather than dropped, and never as zero. -/
theorem c2_group_mean (rows : List ObsRow) (k : GroupKey)
    (h : k ∈ rows.map keyOf) :
    ((k, groupMean rows k) ∈ trend_data rows
      ∧ (trend_data rows).countP (fun e => e.1 == k) = 1)
    ∧ (groupMean rows k = none ↔
        ((rows.filter fun r => keyOf r == k).filterMap fun r =>
          r.value_numeric) = [])
    ∧ (∀ q, groupMean rows k = some q →
        ((rows.filter fun r => keyOf r == k).filterMap fun r =>
            r.value_numeric) ≠ []
        ∧ q * (((rows.filter fun r => keyOf r == k).filterMap fun r =>
              r.value_numeric).length : Rat)
          = ((rows.filter fun r => keyOf r == k).filterMap fun r =>
              r.value_numeric).sum)
    ∧ groupMean trendDemo ("IND_A", some 2020, "ACCESS") = some 15
    ∧ groupMean trendDemo ("IND_B", some 2021, "USAGE") = none := by
  refine ⟨⟨?_, ?_⟩, ?_, ?_, ?_, ?_⟩
  · exact List.mem_map.mpr ⟨k, List.mem_dedup.mpr h, rfl⟩
  · rw [trend_data, List.countP_map]
    show List.countP (fun x => x == k) ((rows.map keyOf).dedup) = 1
    exact countP_eq_one_of_nodup _ _ k (fun x => beq_iff_eq)
      (List.nodup_dedup _) (List.mem_dedup.mpr h)
  · simp only [groupMean]
    cases hv : (rows.filter fun r => keyOf r == k).filterMap
        (fun r => r.value_numeric) with
    | nil => simp
    | cons a t => simp
  · intro q hq
    simp only [groupMean] at hq
    cases hv : (rows.filter fun r => keyOf r == k).filterMap
        (fun r => r.value_numeric) with
    | nil => rw [hv] at hq; simp at hq
    | cons a t =>
        rw [hv] at hq
        simp only [List.isEmpty_cons, Bool.false_eq_true, if_false,
          Option.some_inj] at hq
        refine ⟨by simp, ?_⟩
        have hlen : (((a :: t).length : Nat) : Rat) ≠ 0 :=
          Nat.cast_ne_zero.mpr (by simp)
        rw [← hq, div_mul_cancel₀ _ hlen]
  · have hvals : ((trendDemo.filter fun r =>
        keyOf r == ("IND_A", some 2020, "ACCESS")).filterMap fun r =>
          r.value_numeric) = [10, 20] := by decide
    simp only [groupMean, hvals]
    norm_num
  · decide

theorem c2_witness :
    ("IND_A", some 2020, "ACCESS") ∈ trendDemo.map keyOf
    ∧ (("IND_A", some (2020 : Int), "ACCESS"),
        groupMean trendDemo ("IND_A", some 2020, "ACCESS"))
      ∈ trend_data trendDemo :=
  ⟨by decide,
   (c2_group_mean trendDemo ("IND_A", some 2020, "ACCESS") (by decide)).1.1⟩

theorem length_insertByYear (r : ObsRow) :
    ∀ l, (insertByYear r l).length = l.length + 1
  | [] => rfl
  | x :: xs => by
      rw [insertByYear]
      by_cases h : yearLE r.year x.year
      · simp [h]
      · simp [h, length_insertByYear r xs]

theorem length_sortByYear : ∀ l : List ObsRow, (sortByYear l).length = l.length
  | [] => rfl
  | r :: rs => by
      rw [sortByYear, length_insertByYear, length_sortByYear rs]
      rfl

/-- C3: the Latest-Value Selector keeps only the rows matching the
requested indicator_code and gender, sorts them ascending by year, and
returns the last two values as (current, previous): with no matching row
both are absent, with fewer than two matching rows the previous value is
absent, and on the account-ownership history 2011:14, 2014:22, 2017:35,
2021:46, 2024:49 (gender all) it returns (49, 46). -/
theorem c3_latest_and_previous :
    (∀ (observations : List ObsRow) (ic gen : String),
        (observations.filter fun r =>
          r.indicator_code == ic && r.gender == gen) = [] →
          latestAndPrevious observations ic gen = (none, none))
    ∧ (∀ (observations : List ObsRow) (ic gen : String),
        (observations.filter fun r =>
          r.indicator_code == ic && r.gender == gen).length < 2 →
          (latestAndPrevious observations ic gen).2 = none)
    ∧ latestAndPrevious accOwnershipDemo "ACC_OWNERSHIP" "all"
        = (some 49, some 46) := by
  refine ⟨?_, ?_, ?_⟩
  · intro observations ic gen h
    simp [latestAndPrevious, h, sortByYear]
  · intro observations ic gen h
    have hl : (sortByYear (observations.filter fun r =>
        r.indicator_code == ic && r.gender == gen)).length < 2 := by
      rw [length_sortByYear]; exact h
    show ((sortByYear (observations.filter fun r =>
        r.indicator_code == ic && r.gender == gen)).dropLast.getLast?).bind
        (fun r => r.value_numeric) = none
    cases hs : sortByYear (observations.filter fun r =>
        r.indicator_code == ic && r.gender == gen) with
    | nil => rfl
    | cons a t =>
        rw [hs] at hl
        cases t with
        | nil => rfl
        | cons b u =>
            exfalso
            simp only [List.length_cons] at hl
            omega
  · decide

theorem c3_witness :
    latestAndPrevious accOwnershipDemo "NO_SUCH_INDICATOR" "all" = (none, none)
    ∧ (latestAndPrevious [sampleRow "X" "ACCESS" "all" "%" (some 1) (some 2020)]
        "X" "all").2 = none :=
  ⟨c3_latest_and_previous.1 accOwnershipDemo "NO_SUCH_INDICATOR" "all" (by decide),
   c3_latest_and_previous.2.1
     [sampleRow "X" "ACCESS" "all" "%" (some 1) (some 2020)] "X" "all" (by decide)⟩

/-- C4: a record whose observation_date fails every supported date format
gets an absent derived year (never a sentinel such as 0); such a row is
retained by no year-bounded filter for any year range, no output group of
any Filter/Aggregate query carries an absent year, and the condition is
recovered per row (the pipeline is a total function, so it never
raises). -/
theorem c4_unparseable_date (r : Record)
    (hr : parseDateYear r.observation_date = none) :
    (addYear r).year = none
    ∧ (∀ observations selected_pillars lo hi unit,
        addYear r ∉ filtered_obs observations selected_pillars lo hi unit)
    ∧ (∀ observations selected_pillars lo hi unit e,
        e ∈ filterAndAggregate observations selected_pillars lo hi unit →
          e.1.2.1 ≠ none) := by
  have hy : (addYear r).year = none := by simp [addYear, hr]
  refine ⟨hy, ?_, ?_⟩
  · intro observations selected_pillars lo hi unit hmem
    rw [filtered_obs] at hmem
    have hp := (List.mem_filter.mp hmem).2
    rw [Bool.and_eq_true, Bool.and_eq_true] at hp
    have h2 := hp.1.2
    rw [hy] at h2
    simp [yearIn] at h2
  · intro observations selected_pillars lo hi unit e he
    rw [filterAndAggregate, trend_data] at he
    obtain ⟨k, hk, rfl⟩ := List.mem_map.mp he
    obtain ⟨row, hrow, hkey⟩ := List.mem_map.mp (List.mem_dedup.mp hk)
    rw [filtered_obs] at hrow
    have hp := (List.mem_filter.mp hrow).2
    rw [Bool.and_eq_true, Bool.and_eq_true] at hp
    obtain ⟨v, hv, _, _⟩ := (yearIn_iff _ _ _).mp hp.1.2
    intro hne
    rw [← hkey] at hne
    simp [keyOf, hv] at hne

theorem c4_witness :
    parseDateYear "not a date" = none
    ∧ (addYear badDateRecord).year = none :=
  ⟨by decide, (c4_unparseable_date badDateRecord (by decide)).1⟩

/-- C5 counterexample: with the render-time filter selecting only the
ACCESS pillar over 2011-2025 and unit `%`, re-loading the CSV produced by
the download button does not yield the in-memory filtered set: the
button serializes the full observation table (app.py line 442), so a row
outside the pillar filter and a row with an absent year both come back. -/
theorem c5_counterexample :
    csvToObs (obsToCsv exportDemo)
        ≠ filtered_obs exportDemo ["ACCESS"] 2011 2025 "%"
    ∧ sampleRow "IND_B" "USAGE" "all" "%" (some 20) (some 2020)
        ∈ csvToObs (obsToCsv exportDemo)
    ∧ sampleRow "IND_B" "USAGE" "all" "%" (some 20) (some 2020)
        ∉ filtered_obs exportDemo ["ACCESS"] 2011 2025 "%"
    ∧ sampleRow "IND_C" "ACCESS" "all" "%" (some 30) none
        ∈ csvToObs (obsToCsv exportDemo) := by
  refine ⟨by decide, by decide, by decide, by decide⟩

/-- C5 (amended): the download-button export serializes the full
in-memory observation table with no additional transformation and no
filtering, so re-loading the exported CSV through the Loader yields
exactly the in-memory observation table, row for row and column for
column — including rows outside any render-time filter and rows with an
absent year. -/
theorem c5_export_roundtrip (obs : List ObsRow) :
    csvToObs (obsToCsv obs) = obs := by
  induction obs with
  | nil => rfl
  | cons r rs ih =>
      show List.filterMap parseObsRow (printObsRow r :: rs.map printObsRow)
        = r :: rs
      rw [List.filterMap_cons, parseObsRow_printObsRow]
      exact congrArg (r :: ·) ih

theorem record_type_addYear (r : Record) :
    (addYear r).record_type = r.record_type := rfl

theorem mem_filter_map_addYear {x : ObsRow} {main : List Record} {t : String} :
    x ∈ (main.filter fun r => r.record_type == t).map addYear ↔
      ∃ r, r ∈ main ∧ r.record_type = t ∧ addYear r = x := by
  constructor
  · intro hx
    obtain ⟨r, hr, he⟩ := List.mem_map.mp hx
    have hf := List.mem_filter.mp hr
    exact ⟨r, hf.1, by simpa using hf.2, he⟩
  · rintro ⟨r, hm, ht, he⟩
    exact List.mem_map.mpr ⟨r, List.mem_filter.mpr ⟨hm, by simp [ht]⟩, he⟩

theorem partition_length :
    ∀ l : List Record,
      (∀ r ∈ l, r.record_type = "observation" ∨ r.record_type = "event") →
        (l.filter fun r => r.record_type == "observation").length
          + (l.filter fun r => r.record_type == "event").length = l.length
  | [], _ => rfl
  | a :: t, h => by
      have ha := h a (List.mem_cons_self a t)
      have ht := partition_length t fun r hr => h r (List.mem_cons_of_mem a hr)
      simp only [List.filter_cons]
      rcases ha with ha | ha
      · rw [ha, if_pos (by decide), if_neg (by decide)]
        simp only [List.length_cons]
        omega
      · rw [ha, if_neg (by decide), if_pos (by decide)]
        simp only [List.length_cons]
        omega

/-- C6: when every record of the unified table is an observation or an
event, the load-time partition assigns each record to exactly one of the
two derived tables (the observation table holds exactly the
record_type = observation rows, the event table exactly the
record_type = event rows), the two tables are disjoint and their sizes
add up to the source size; the partition is a pure function of the
source table, which it leaves unchanged. -/
theorem c6_partition (main_data : List Record)
    (h : ∀ r ∈ main_data,
      r.record_type = "observation" ∨ r.record_type = "event") :
    (∀ x, x ∈ process_observations main_data →
        x ∉ process_events main_data)
    ∧ (∀ r ∈ main_data,
        (addYear r ∈ process_observations main_data
          ∧ addYear r ∉ process_events main_data)
      ∨ (addYear r ∈ process_events main_data
          ∧ addYear r ∉ process_observations main_data))
    ∧ (process_observations main_data).length
        + (process_events main_data).length = main_data.length := by
  have hobs_type : ∀ x, x ∈ process_observations main_data →
      x.record_type = "observation" := by
    intro x hx
    obtain ⟨r, _, ht, he⟩ := mem_filter_map_addYear.mp hx
    rw [← he]
    exact ht
  have hev_type : ∀ x, x ∈ process_events main_data →
      x.record_type = "event" := by
    intro x hx
    obtain ⟨r, _, ht, he⟩ := mem_filter_map_addYear.mp hx
    rw [← he]
    exact ht
  have hdis : ∀ x, x ∈ process_observations main_data →
      x ∉ process_events main_data := by
    intro x hx hxe
    have : ("observation" : String) = "event" :=
      (hobs_type x hx).symm.trans (hev_type x hxe)
    exact absurd this (by decide)
  refine ⟨hdis, ?_, ?_⟩
  · intro r hr
    rcases h r hr with ht | ht
    · left
      have hm : addYear r ∈ process_observations main_data :=
        mem_filter_map_addYear.mpr ⟨r, hr, ht, rfl⟩
      exact ⟨hm, hdis _ hm⟩
    · right
      have hm : addYear r ∈ process_events main_data :=
        mem_filter_map_addYear.mpr ⟨r, hr, ht, rfl⟩
      exact ⟨hm, fun hobs => hdis _ hobs hm⟩
  · rw [process_observations, process_events, List.length_map, List.length_map]
    exact partition_length main_data h

theorem c6_witness :
    (∀ r ∈ partitionDemo,
      r.record_type = "observation" ∨ r.record_type = "event")
    ∧ (process_observations partitionDemo).length
        + (process_events partitionDemo).length = partitionDemo.length :=
  ⟨by decide, (c6_partition partitionDemo (by decide)).2.2⟩

/-- C7: if any of the three backing files fails to load, `load_data`
raises a DataUnavailable error, the session flag `data_loaded` is false,
and no page renders any data-derived content — no partial render and no
silent substitution of default tables. -/
theorem c7_data_unavailable (mainFile : Option (List Record))
    (forecastFile impactFile : Option Csv)
    (h : mainFile = none ∨ forecastFile = none ∨ impactFile = none) :
    (∃ e, load_data mainFile forecastFile impactFile = Except.error e)
    ∧ data_loaded mainFile forecastFile impactFile = false
    ∧ ∀ p selected_pillars lo hi,
        renderPage p mainFile forecastFile impactFile selected_pillars lo hi
          = none := by
  have herr : ∃ e, load_data mainFile forecastFile impactFile
      = Except.error e := by
    rcases h with rfl | rfl | rfl
    · exact ⟨"DataUnavailable", rfl⟩
    · cases mainFile <;> exact ⟨"DataUnavailable", rfl⟩
    · cases mainFile <;> cases forecastFile <;> exact ⟨"DataUnavailable", rfl⟩
  obtain ⟨e, he⟩ := herr
  have hsession : initSession mainFile forecastFile impactFile = none := by
    rw [initSession, he]
  refine ⟨⟨e, he⟩, ?_, ?_⟩
  · rw [data_loaded, hsession]
    rfl
  · intro p selected_pillars lo hi
    rw [renderPage, hsession]

theorem c7_witness :
    (∃ e, load_data none (some []) (some []) = Except.error e)
    ∧ data_loaded none (some []) (some []) = false :=
  ⟨(c7_data_unavailable none (some []) (some []) (Or.inl rfl)).1,
   (c7_data_unavailable none (some []) (some []) (Or.inl rfl)).2.1⟩

/-- C8: the Filter/Aggregate step is a deterministic pure function of
the observation table and the argument triple: two evaluations on the
same arguments produce identical output (hence also order-insensitively
identical output), and equal inputs give equal outputs. -/
theorem c8_deterministic (observations : List ObsRow)
    (selected_pillars : List String) (lo hi : Int) (unit : String) :
    (filterAndAggregate observations selected_pillars lo hi unit
        = filterAndAggregate observations selected_pillars lo hi unit
      ∧ (filterAndAggregate observations selected_pillars lo hi unit).Perm
          (filterAndAggregate observations selected_pillars lo hi unit))
    ∧ ∀ obs2 pillars2 lo2 hi2 unit2, observations = obs2 →
        selected_pillars = pillars2 → lo = lo2 → hi = hi2 → unit = unit2 →
          filterAndAggregate observations selected_pillars lo hi unit
            = filterAndAggregate obs2 pillars2 lo2 hi2 unit2 := by
  refine ⟨⟨rfl, List.Perm.refl _⟩, ?_⟩
  rintro obs2 pillars2 lo2 hi2 unit2 rfl rfl rfl rfl rfl
  rfl

theorem c8_witness :
    filterAndAggregate trendDemo ["ACCESS"] 2011 2025 "%"
      = filterAndAggregate trendDemo ["ACCESS"] 2011 2025 "%" :=
  (c8_deterministic trendDemo ["ACCESS"] 2011 2025 "%").2
    trendDemo ["ACCESS"] 2011 2025 "%" rfl rfl rfl rfl rfl

/-- C9: an empty pillar selection yields an empty filtered set and an
empty aggregate rather than an error; in general a filter matching no
rows is a valid empty sequence, for which the Trends page presents the
explanatory info message instead of failing. -/
theorem c9_empty_result (observations : List ObsRow) (lo hi : Int)
    (unit : String) :
    filtered_obs observations [] lo hi unit = []
    ∧ filterAndAggregate observations [] lo hi unit = []
    ∧ ∀ selected_pillars,
        filtered_obs observations selected_pillars lo hi unit = [] →
          (filterAndAggregate observations selected_pillars lo hi unit = []
            ∧ trendsSection observations selected_pillars lo hi unit
              = TrendsResult.message
                "No data available for selected filters. Try adjusting the year range or pillars.") := by
  have hgen : ∀ selected_pillars,
      filtered_obs observations selected_pillars lo hi unit = [] →
        (filterAndAggregate observations selected_pillars lo hi unit = []
          ∧ trendsSection observations selected_pillars lo hi unit
            = TrendsResult.message
              "No data available for selected filters. Try adjusting the year range or pillars.") := by
    intro selected_pillars hf
    constructor
    · rw [filterAndAggregate, hf]
      rfl
    · show (if (filtered_obs observations selected_pillars lo hi unit).length > 0
          then TrendsResult.chart
            (trend_data (filtered_obs observations selected_pillars lo hi unit))
          else TrendsResult.message
            "No data available for selected filters. Try adjusting the year range or pillars.")
        = TrendsResult.message
            "No data available for selected filters. Try adjusting the year range or pillars."
      rw [hf]
      rfl
  have hempty : filtered_obs observations [] lo hi unit = [] := by
    rw [filtered_obs]
    apply List.filter_eq_nil_iff.mpr
    intro r _
    simp [List.contains]
  exact ⟨hempty, (hgen [] hempty).1, hgen⟩

theorem c9_witness :
    filtered_obs accOwnershipDemo ["GENDER"] 2011 2025 "%" = []
    ∧ filterAndAggregate accOwnershipDemo ["GENDER"] 2011 2025 "%" = [] :=
  ⟨by decide,
   ((c9_empty_result accOwnershipDemo 2011 2025 "%").2.2 ["GENDER"]
     (by decide)).1⟩

/-- C10: the Latest-Value Selector does not exclude rows whose derived
year is absent: on a matching row set containing one row with an
unparseable observation_date, the absent-year row is kept, sorts after
every present-year row, and its value is the one returned as current. -/
theorem c10_absent_year_is_current :
    parseDateYear "not a date" = none
    ∧ (sortByYear ((process_observations dateDemoRecords).filter fun r =>
        r.indicator_code == "ACC_OWNERSHIP" && r.gender == "all")).map
          (fun r => r.year) = [some 2021, none]
    ∧ latestAndPrevious (process_observations dateDemoRecords)
        "ACC_OWNERSHIP" "all" = (some 99, some 46) := by
  refine ⟨by decide, by decide, by decide⟩
